import Mathlib

/-!
Verification of the eta-ml-service prediction pipeline.

Shallow embedding of `app/services/model_service.py`,
`app/routes/predictions.py`, `app/routes/experiments.py`,
`app/routes/training.py`, `app/services/traffic_service.py`,
`app/services/weather_service.py` and
`app/services/feature_service.py`.

Python floats are modelled as rationals where the code is purely
arithmetic (model service, experiments, training state), and as real
numbers where trigonometry appears (the haversine-based route
calculation).  Python dicts of numeric features are modelled as
association lists.  Exceptions of fallible code are modelled with
`Except`.
-/

/- ------------------------------------------------------------------
   Feature dictionaries: Python `dict[str, float]` with `.get(k, d)`.
   ------------------------------------------------------------------ -/

/-- A feature bag: the Python feature dict passed between stages. -/
def Features : Type := List (String × ℚ)

/-- Python `features.get(name, default)` on a numeric feature dict. -/
def Features.getD (f : Features) (name : String) (default : ℚ) : ℚ :=
  match List.lookup name f with
  | some v => v
  | none => default

/- ------------------------------------------------------------------
   ModelService (app/services/model_service.py)
   ------------------------------------------------------------------ -/

/-- `ModelService.FEATURE_NAMES`: the fixed feature order expected by
the model (model_service.py lines 31-63). -/
def FEATURE_NAMES : List String :=
  [ "straight_distance_km", "estimated_road_distance_km",
    "bearing_sin", "bearing_cos",
    "hour", "hour_sin", "hour_cos",
    "day_of_week", "day_sin", "day_cos",
    "is_weekend", "is_rush_hour_morning", "is_rush_hour_evening",
    "is_night", "is_holiday",
    "traffic_speed_ratio", "traffic_delay_minutes",
    "traffic_level_encoded", "traffic_incidents_count",
    "traffic_congestion_percent",
    "weather_condition_encoded", "is_raining", "precipitation_mm",
    "visibility_km",
    "is_cbd_origin", "is_cbd_dest", "crosses_cbd", "h3_distance",
    "vehicle_type_encoded", "is_bike", "driver_rating" ]

/-- `ModelService._prepare_features`: the feature vector in the fixed
order, missing names defaulting to 0 (model_service.py lines 140-147). -/
def prepare_features (f : Features) : List ℚ :=
  FEATURE_NAMES.map (fun name => f.getD name 0)

/-- `ModelService._calculate_uncertainty` (model_service.py lines
149-169).  Python truthiness of a numeric feature is `≠ 0`. -/
def calculate_uncertainty (f : Features) : ℚ :=
  let u0 : ℚ := 10 / 100
  let u1 : ℚ := if f.getD "is_raining" 0 ≠ 0 then u0 + 5 / 100 else u0
  let u2 : ℚ := if f.getD "traffic_level_encoded" 0 ≥ 2 then u1 + 8 / 100 else u1
  let u3 : ℚ :=
    if f.getD "is_rush_hour_morning" 0 ≠ 0 ∨ f.getD "is_rush_hour_evening" 0 ≠ 0
    then u2 + 5 / 100 else u2
  let u4 : ℚ := if f.getD "estimated_road_distance_km" 0 > 10 then u3 + 5 / 100 else u3
  min (30 / 100) u4

/-- `ModelService._fallback_prediction` (model_service.py lines
171-204): the heuristic ETA with its 25 percent band.  Returns the triple
`(eta_seconds, min_eta_seconds, max_eta_seconds)` exactly as the code
builds it: `(max(60, eta_seconds), max(60, min_eta), max_eta)`. -/
def fallback_prediction (f : Features) : ℚ × ℚ × ℚ :=
  let BASE_SPEED : ℚ := 25
  let distance_km := f.getD "estimated_road_distance_km" 5
  let traffic_level := f.getD "traffic_level_encoded" 1
  let traffic_mult : ℚ :=
    if traffic_level = 0 then 1
    else if traffic_level = 1 then 13 / 10
    else if traffic_level = 2 then 18 / 10
    else if traffic_level = 3 then 25 / 10
    else 13 / 10
  let time_mult : ℚ :=
    if f.getD "is_rush_hour_morning" 0 ≠ 0 ∨ f.getD "is_rush_hour_evening" 0 ≠ 0
    then 14 / 10
    else if f.getD "is_night" 0 ≠ 0 then 8 / 10
    else 1
  let effective_speed := BASE_SPEED / (traffic_mult * time_mult)
  let eta_hours := distance_km / effective_speed
  let eta_seconds := eta_hours * 3600
  let uncertainty : ℚ := 25 / 100
  let min_eta := eta_seconds * (1 - uncertainty)
  let max_eta := eta_seconds * (1 + uncertainty)
  (max 60 eta_seconds, max 60 min_eta, max_eta)

/-- The loaded regression model, as the engine sees it: a function from
the prepared feature vector to a prediction, which may raise
(`Except.error`).  `none` is the state with no model loaded
(`self.model is None`). -/
def Model : Type := Option (List ℚ → Except String ℚ)

/-- `ModelService.predict` (model_service.py lines 100-138): the ready
path feeds the ordered vector to the model, floors the output at 60
seconds and derives the uncertainty band; any exception of the ready
path is caught and answered by `_fallback_prediction`; with no model
loaded the fallback is used directly. -/
def ModelService.predict (model : Model) (f : Features) : ℚ × ℚ × ℚ :=
  match model with
  | none => fallback_prediction f
  | some m =>
    match m (prepare_features f) with
    | Except.error _ => fallback_prediction f
    | Except.ok p =>
      let eta_seconds := max 60 p
      let uncertainty := calculate_uncertainty f
      let min_eta := eta_seconds * (1 - uncertainty)
      let max_eta := eta_seconds * (1 + uncertainty)
      (eta_seconds, min_eta, max_eta)

/-- `PredictionMethod` (app/models/schemas.py lines 28-31). -/
inductive PredictionMethod where
  | ml_model
  | simple_calculation
  deriving DecidableEq, Repr

/-- Modelled from the spec: `ModelService.is_ready`, called by
`predict_eta` (predictions.py line 134) but absent from src; §4.3 of
the spec gives the engine state as ready exactly when a model is
loaded. -/
def ModelService.is_ready (model : Model) : Bool :=
  model.isSome

/-- The method label `predict_eta` attaches to the response
(predictions.py lines 134-148): `ml_model` when the model service
reports ready at dispatch, else `simple_calculation`. -/
def routeMethod (model : Model) : PredictionMethod :=
  if ModelService.is_ready model then PredictionMethod.ml_model
  else PredictionMethod.simple_calculation

/- ------------------------------------------------------------------
   Theorems for claims C1, C3 and the engine half of C2.
   ------------------------------------------------------------------ -/

/-- Equation lemma: `predict` with a loaded model dispatches on the
outcome of the model call. -/
theorem predict_some_eq (m : List ℚ → Except String ℚ) (f : Features) :
    ModelService.predict (some m) f =
      match m (prepare_features f) with
      | Except.error _ => fallback_prediction f
      | Except.ok p =>
        (max 60 p, max 60 p * (1 - calculate_uncertainty f),
          max 60 p * (1 + calculate_uncertainty f)) := rfl

/-- The first component of the fallback triple is the floored ETA. -/
theorem fallback_prediction_fst_ge (f : Features) :
    60 ≤ (fallback_prediction f).1 := by
  simp only [fallback_prediction]
  exact le_max_left _ _

/-- Claim C1: the PredictionResult invariant
`confidence_low ≤ eta_seconds ≤ confidence_high` fails on the
heuristic fallback path: for a road distance of 0.1 km the code
returns `(eta, low, high) = (60, 60, 23.4)` — the returned
`confidence_high` is below `eta_seconds` (and below `confidence_low`),
because `max_eta` is computed from the unclamped ETA while
`eta_seconds` is floored at 60. -/
theorem C1_fallback_violates_invariant :
    fallback_prediction [("estimated_road_distance_km", 1 / 10)] =
      (60, 60, 117 / 5) ∧
    ¬ ((60 : ℚ) ≤ 117 / 5) := by
  constructor
  · have h1 : Features.getD [("estimated_road_distance_km", 1 / 10)]
        "estimated_road_distance_km" 5 = 1 / 10 := rfl
    have h2 : Features.getD [("estimated_road_distance_km", 1 / 10)]
        "traffic_level_encoded" 1 = 1 := rfl
    have h3 : Features.getD [("estimated_road_distance_km", 1 / 10)]
        "is_rush_hour_morning" 0 = 0 := rfl
    have h4 : Features.getD [("estimated_road_distance_km", 1 / 10)]
        "is_rush_hour_evening" 0 = 0 := rfl
    have h5 : Features.getD [("estimated_road_distance_km", 1 / 10)]
        "is_night" 0 = 0 := rfl
    simp only [fallback_prediction, h1, h2, h3, h4, h5]
    norm_num [max_def]
  · norm_num

/-- Claim C2 (amended): the prediction engine floors every point
estimate at 60 seconds — on the model path, on the caught-exception
path and on the no-model fallback path alike.  (The route-level
`_simple_eta_calculation` applies no such floor; see the
counterexample theorem for C2.) -/
theorem C2_engine_eta_floor (model : Model) (f : Features) :
    60 ≤ (ModelService.predict model f).1 := by
  cases model with
  | none => exact fallback_prediction_fst_ge f
  | some m =>
    rw [predict_some_eq]
    cases hm : m (prepare_features f) with
    | error e => exact fallback_prediction_fst_ge f
    | ok p => exact le_max_left _ _

/-- Claim C3 (amended): any exception of the ready path is caught
inside `ModelService.predict` and the fallback triple is returned —
no inference error reaches the caller; but the method label attached
by `predict_eta` stays `ml_model`, because it is derived from
`is_ready()` (model loaded) and not from the path that produced the
values. -/
theorem C3_ready_path_errors_fall_back (f : Features)
    (m : List ℚ → Except String ℚ) (e : String)
    (h : m (prepare_features f) = Except.error e) :
    ModelService.predict (some m) f = fallback_prediction f ∧
    routeMethod (some m) = PredictionMethod.ml_model := by
  refine ⟨?_, rfl⟩
  rw [predict_some_eq, h]

/-- Witness for C3: a concrete always-raising model on a concrete
feature bag is answered by the fallback triple and labelled
`ml_model`. -/
theorem C3_ready_path_errors_fall_back_witness :
    ModelService.predict (some (fun _ => Except.error "boom")) [("hour", 9)] =
      fallback_prediction [("hour", 9)] ∧
    routeMethod (some (fun _ => Except.error "boom")) =
      PredictionMethod.ml_model :=
  C3_ready_path_errors_fall_back [("hour", 9)] (fun _ => Except.error "boom")
    "boom" rfl

/-- Counterexample for C3 as stated: with a loaded model whose
inference raises, the caller receives the fallback values but the
label is `ml_model`, not the fallback label `simple_calculation`. -/
theorem C3_label_is_not_fallback :
    ModelService.predict (some (fun _ => Except.error "boom")) [] =
      fallback_prediction [] ∧
    routeMethod (some (fun _ => Except.error "boom")) ≠
      PredictionMethod.simple_calculation := by
  exact ⟨rfl, by decide⟩

/- ------------------------------------------------------------------
   Experiment Coordinator (app/routes/experiments.py)
   ------------------------------------------------------------------ -/

/-- `.value` of the `PredictionMethod` enum members (schemas.py). -/
def PredictionMethod.value : PredictionMethod → String
  | PredictionMethod.ml_model => "ml_model"
  | PredictionMethod.simple_calculation => "simple_calculation"

/-- `ExperimentConfig` (schemas.py lines 185-193), restricted to the
fields the embedded operations read.  `traffic_percentage` is an int
field constrained to 0-100 by pydantic; `status` is a plain string. -/
structure ExperimentConfig where
  name : String
  traffic_percentage : ℤ
  status : String

/-- The in-memory experiment registry `_active_experiments`
(experiments.py line 41), a dict keyed by experiment id. -/
def Registry : Type := List (String × ExperimentConfig)

/-- `get_experiment_assignment` (experiments.py lines 250-270).
Python's built-in `hash` on the joined string is modelled as an
arbitrary function `pyHash : String → ℤ`; Python's `%` on a positive
modulus is `Int.emod`, which returns a value in `[0, 100)`. -/
def get_experiment_assignment (pyHash : String → ℤ) (reg : Registry)
    (user_id experiment_id : String) : Option String :=
  match List.lookup experiment_id reg with
  | none => none
  | some experiment =>
    if experiment.status ≠ "active" then none
    else
      let hash_value := pyHash (user_id ++ ":" ++ experiment_id) % 100
      if hash_value < experiment.traffic_percentage then some "treatment"
      else some "control"

/-- The derived quantities `get_experiment_results` computes from the
four per-arm counters (experiments.py lines 162-172).  The response
additionally rounds the accuracies and the improvement to two decimal
places for display; the computations themselves are embedded here. -/
structure ExperimentResultsCalc where
  ml_accuracy : ℚ
  simple_accuracy : ℚ
  improvement : ℚ
  is_significant : Bool

/-- The counter arithmetic of `get_experiment_results`
(experiments.py lines 162-172): per-arm accuracy, guarded
improvement, and the two-sided 100-sample significance test. -/
def get_experiment_results_calc
    (ml_total ml_within_3min simple_total simple_within_3min : ℕ) :
    ExperimentResultsCalc :=
  let ml_accuracy : ℚ :=
    if ml_total > 0 then (ml_within_3min : ℚ) / (ml_total : ℚ) * 100 else 0
  let simple_accuracy : ℚ :=
    if simple_total > 0 then (simple_within_3min : ℚ) / (simple_total : ℚ) * 100
    else 0
  let improvement : ℚ :=
    if ml_accuracy > 0 ∧ simple_accuracy > 0 then ml_accuracy - simple_accuracy
    else 0
  let min_samples : ℕ := 100
  let is_significant : Bool :=
    decide (ml_total ≥ min_samples ∧ simple_total ≥ min_samples)
  ⟨ml_accuracy, simple_accuracy, improvement, is_significant⟩

/-- `_generate_recommendation` (experiments.py lines 231-247). -/
def generate_recommendation (improvement : ℚ) (is_significant : Bool)
    (sample_size : ℕ) : String :=
  if sample_size < 200 then
    "Insufficient data. Continue running experiment to reach minimum 100 samples per group."
  else if ¬ is_significant then
    "Results not yet statistically significant. Continue running experiment."
  else if improvement ≥ 20 then "roll out to 100"
  else if improvement ≥ 10 then "gradual rollout"
  else if improvement ≥ 0 then "minimal improvement"
  else "do not deploy"

/-- The per-arm counters kept in the cache, keyed by strings of the
form `exp:` id `:` arm `:` metric. -/
def Counters : Type := String → ℕ

/-- `CacheService.increment` on one counter key. -/
def Counters.incr (c : Counters) (k : String) : Counters :=
  fun x => if x = k then c x + 1 else c x

/-- The fields of the dict `record_experiment_result` returns (the
code also echoes `error_minutes`, rounded to two decimals, which is
embedded unrounded). -/
structure RecordResponse where
  recorded : Bool
  method : String
  error_minutes : ℚ
  within_3min : Bool

/-- `record_experiment_result` (experiments.py lines 199-228): 404
when the experiment id is absent from the registry; otherwise the
error is computed, the per-arm `total` counter is incremented, and
`within_3min` additionally when the error is at most three minutes.
The experiment status is never consulted. -/
def record_experiment_result (reg : Registry) (experiment_id : String)
    (method : PredictionMethod) (actual_seconds predicted_seconds : ℚ)
    (counters : Counters) : Except ℕ (RecordResponse × Counters) :=
  match List.lookup experiment_id reg with
  | none => Except.error 404
  | some _ =>
    let error_seconds := |actual_seconds - predicted_seconds|
    let error_minutes := error_seconds / 60
    let within_3min : Bool := decide (error_minutes ≤ 3)
    let pfx := "exp:" ++ experiment_id ++ ":" ++ method.value
    let counters1 := counters.incr (pfx ++ ":total")
    let counters2 :=
      if within_3min then counters1.incr (pfx ++ ":within_3min") else counters1
    Except.ok (⟨true, method.value, error_minutes, within_3min⟩, counters2)

/- ------------------------------------------------------------------
   Training trigger (app/routes/training.py)
   ------------------------------------------------------------------ -/

/-- The module-level `_training_state` dict (training.py lines 39-43).
Timestamps are rationals (seconds); the last result is kept abstract
as an optional string. -/
structure TrainingState where
  is_training : Bool
  last_trained : Option ℚ
  last_result : Option String

/-- The three responses `trigger_training` can produce. -/
inductive TriggerOutcome where
  | conflict (status : ℕ)
  | skipped
  | started
  deriving DecidableEq, Repr

/-- `trigger_training` (training.py lines 46-81).  Returns the
response, the training state after the call, and whether a background
training task was scheduled.  A running training yields an HTTP 409
conflict before anything is mutated or scheduled; a recent enough
last training (without `force`) yields `skipped`; otherwise the flag
is set and the background task scheduled. -/
def trigger_training (s : TrainingState) (force : Bool)
    (retrain_interval_hours : ℚ) (now : ℚ) :
    TriggerOutcome × TrainingState × Bool :=
  if s.is_training then (TriggerOutcome.conflict 409, s, false)
  else
    let proceed := (TriggerOutcome.started,
      { s with is_training := true }, true)
    if force then proceed
    else
      match s.last_trained with
      | some last_trained =>
        let hours_since_training := (now - last_trained) / 3600
        if hours_since_training < retrain_interval_hours then
          (TriggerOutcome.skipped, s, false)
        else proceed
      | none => proceed

/- ------------------------------------------------------------------
   Theorems for claims C4, C5, C6, C9.
   ------------------------------------------------------------------ -/

/-- Appending different suffixes to the same string gives different
strings (used for the distinct counter keys). -/
theorem str_append_ne (s a b : String) (h : a.data ≠ b.data) :
    s ++ a ≠ s ++ b := by
  intro he
  apply h
  have hd : (s ++ a).data = (s ++ b).data := congrArg String.data he
  rw [String.data_append, String.data_append] at hd
  exact List.append_cancel_left hd

/-- Claim C4: cohort assignment is a deterministic function of the
subject, the experiment id and the registry; it is `none` when the
experiment is absent or not active, and otherwise hashes the pair to
a value in `[0, 100)` and answers `treatment` exactly below the
traffic percentage, else `control`. -/
theorem C4_cohort_assignment (pyHash : String → ℤ) (reg : Registry)
    (uid eid : String) :
    (get_experiment_assignment pyHash reg uid eid
        = get_experiment_assignment pyHash reg uid eid)
    ∧ (List.lookup eid reg = none →
        get_experiment_assignment pyHash reg uid eid = none)
    ∧ (∀ ex : ExperimentConfig, List.lookup eid reg = some ex →
        ex.status ≠ "active" →
        get_experiment_assignment pyHash reg uid eid = none)
    ∧ (∀ ex : ExperimentConfig, List.lookup eid reg = some ex →
        ex.status = "active" →
        0 ≤ pyHash (uid ++ ":" ++ eid) % 100
        ∧ pyHash (uid ++ ":" ++ eid) % 100 < 100
        ∧ get_experiment_assignment pyHash reg uid eid =
            (if pyHash (uid ++ ":" ++ eid) % 100 < ex.traffic_percentage
             then some "treatment" else some "control")) := by
  refine ⟨rfl, ?_, ?_, ?_⟩
  · intro h
    unfold get_experiment_assignment
    rw [h]
  · intro ex h hst
    unfold get_experiment_assignment
    rw [h]
    simp [hst]
  · intro ex h hst
    refine ⟨Int.emod_nonneg _ (by norm_num),
      Int.emod_lt_of_pos _ (by norm_num), ?_⟩
    unfold get_experiment_assignment
    rw [h]
    simp [hst]

/-- Witness for C4: with a constant hash of 37 and an active
experiment at 50 percent traffic, the subject lands in `treatment`. -/
theorem C4_cohort_assignment_witness :
    get_experiment_assignment (fun _ => 37)
      [("e1", ⟨"exp one", 50, "active"⟩)] "u1" "e1" = some "treatment" := by
  have h := (C4_cohort_assignment (fun _ => 37)
      [("e1", ⟨"exp one", 50, "active"⟩)] "u1" "e1").2.2.2
      ⟨"exp one", 50, "active"⟩ rfl rfl
  rw [h.2.2]
  norm_num

/-- Claim C5 counterexample: with treatment counters 5-of-10 (50
percent accuracy) and control counters 0-of-10 (0 percent accuracy),
the code reports improvement 0, not the accuracy difference 50,
because the improvement is guarded by both accuracies being
positive. -/
theorem C5_improvement_guard_counterexample :
    (get_experiment_results_calc 10 5 10 0).improvement ≠
      (get_experiment_results_calc 10 5 10 0).ml_accuracy -
        (get_experiment_results_calc 10 5 10 0).simple_accuracy := by
  norm_num [get_experiment_results_calc]

/-- Claim C5 (amended): the results operation recomputes each arm's
accuracy as `within_3min / total * 100` (0 when the total is 0),
reports significance exactly when both arms have at least 100
samples, and reports improvement equal to treatment accuracy minus
control accuracy when both accuracies are positive — and 0
otherwise. -/
theorem C5_results_formulas (mt mw st sw : ℕ) :
    (get_experiment_results_calc mt mw st sw).ml_accuracy
        = (if mt > 0 then (mw : ℚ) / (mt : ℚ) * 100 else 0)
    ∧ (get_experiment_results_calc mt mw st sw).simple_accuracy
        = (if st > 0 then (sw : ℚ) / (st : ℚ) * 100 else 0)
    ∧ (get_experiment_results_calc mt mw st sw).improvement
        = (if 0 < (get_experiment_results_calc mt mw st sw).ml_accuracy
              ∧ 0 < (get_experiment_results_calc mt mw st sw).simple_accuracy
           then (get_experiment_results_calc mt mw st sw).ml_accuracy
                - (get_experiment_results_calc mt mw st sw).simple_accuracy
           else 0)
    ∧ ((get_experiment_results_calc mt mw st sw).is_significant = true
        ↔ 100 ≤ mt ∧ 100 ≤ st) := by
  refine ⟨rfl, rfl, rfl, ?_⟩
  simp [get_experiment_results_calc, decide_eq_true_eq, ge_iff_le]

/-- Witness for C5: at 150 samples per arm the significance flag is
set. -/
theorem C5_results_formulas_witness :
    (get_experiment_results_calc 150 135 150 90).is_significant = true :=
  (C5_results_formulas 150 135 150 90).2.2.2.mpr (by norm_num)

/-- Claim C6: a training trigger that arrives while the training flag
is `running` gets the 409 conflict response, schedules no background
task, and leaves the whole training state (flag, last-trained
timestamp and last result) unchanged. -/
theorem C6_conflict_on_running (s : TrainingState) (force : Bool)
    (retrain_interval_hours now : ℚ) (h : s.is_training = true) :
    trigger_training s force retrain_interval_hours now
      = (TriggerOutcome.conflict 409, s, false) := by
  unfold trigger_training
  rw [h]
  rfl

/-- Witness for C6: a concrete running state is left untouched. -/
theorem C6_conflict_on_running_witness :
    trigger_training ⟨true, none, none⟩ false 24 0
      = (TriggerOutcome.conflict 409, ⟨true, none, none⟩, false) :=
  C6_conflict_on_running ⟨true, none, none⟩ false 24 0 rfl

/-- Claim C9: the record operation answers 404 exactly when the
experiment id is absent; for any present experiment — the status,
including `stopped`, is never consulted — it succeeds, increments the
per-arm total counter, and also the within-3-minutes counter when the
absolute error is at most 180 seconds. -/
theorem C9_record_404_iff_absent (reg : Registry) (eid : String)
    (method : PredictionMethod) (a p : ℚ) (cnt : Counters) :
    ((record_experiment_result reg eid method a p cnt = Except.error 404)
        ↔ List.lookup eid reg = none)
    ∧ (∀ ex : ExperimentConfig, List.lookup eid reg = some ex →
        ∃ resp cnt2,
          record_experiment_result reg eid method a p cnt
            = Except.ok (resp, cnt2)
          ∧ resp.recorded = true
          ∧ cnt2 ("exp:" ++ eid ++ ":" ++ method.value ++ ":total")
              = cnt ("exp:" ++ eid ++ ":" ++ method.value ++ ":total") + 1
          ∧ (|a - p| ≤ 180 →
              cnt2 ("exp:" ++ eid ++ ":" ++ method.value ++ ":within_3min")
                = cnt ("exp:" ++ eid ++ ":" ++ method.value ++ ":within_3min")
                  + 1)) := by
  constructor
  · constructor
    · intro h
      cases hl : List.lookup eid reg with
      | none => rfl
      | some ex =>
        unfold record_experiment_result at h
        rw [hl] at h
        exact absurd h (by simp)
    · intro h
      unfold record_experiment_result
      rw [h]
  · intro ex hl
    unfold record_experiment_result
    rw [hl]
    refine ⟨_, _, rfl, rfl, ?_, ?_⟩
    · have hne : "exp:" ++ eid ++ ":" ++ method.value ++ ":total" ≠
          "exp:" ++ eid ++ ":" ++ method.value ++ ":within_3min" :=
        str_append_ne ("exp:" ++ eid ++ ":" ++ method.value) ":total"
          ":within_3min" (by decide)
      by_cases hw : |a - p| / 60 ≤ 3
      · simp only [hw, decide_True, if_true, Counters.incr, if_pos rfl]
        rw [if_neg hne]
      · simp only [hw, decide_False, Bool.false_eq_true, if_false,
          Counters.incr, if_pos rfl, if_true]
    · intro h3
      have hne : "exp:" ++ eid ++ ":" ++ method.value ++ ":within_3min" ≠
          "exp:" ++ eid ++ ":" ++ method.value ++ ":total" :=
        str_append_ne ("exp:" ++ eid ++ ":" ++ method.value) ":within_3min"
          ":total" (by decide)
      have hw : |a - p| / 60 ≤ 3 := by
        rw [div_le_iff₀ (by norm_num)]
        linarith
      simp only [hw, decide_True, if_true, Counters.incr, if_pos rfl]
      rw [if_neg hne]

/-- Witness for C9: recording against a stopped experiment succeeds
and bumps both counters. -/
theorem C9_record_404_iff_absent_witness :
    ∃ resp cnt2,
      record_experiment_result [("e1", ⟨"exp one", 50, "stopped"⟩)] "e1"
          PredictionMethod.ml_model 100 50 (fun _ => 0)
        = Except.ok (resp, cnt2)
      ∧ resp.recorded = true
      ∧ cnt2 ("exp:" ++ "e1" ++ ":" ++ PredictionMethod.ml_model.value
          ++ ":total") = 1
      ∧ cnt2 ("exp:" ++ "e1" ++ ":" ++ PredictionMethod.ml_model.value
          ++ ":within_3min") = 1 := by
  obtain ⟨resp, cnt2, h1, h2, h3, h4⟩ :=
    (C9_record_404_iff_absent [("e1", ⟨"exp one", 50, "stopped"⟩)] "e1"
      PredictionMethod.ml_model 100 50 (fun _ => 0)).2
      ⟨"exp one", 50, "stopped"⟩ rfl
  exact ⟨resp, cnt2, h1, h2, by rw [h3], by rw [h4 (by norm_num)]⟩

/- ------------------------------------------------------------------
   Condition adapters (app/services/traffic_service.py,
   app/services/weather_service.py)
   ------------------------------------------------------------------ -/

/-- Python `int()` on a float/rational: truncation toward zero. -/
def pyInt (q : ℚ) : ℤ :=
  if 0 ≤ q then ⌊q⌋ else -⌊-q⌋

/-- `LatLng` (schemas.py): a coordinate pair, rational here since the
adapters only compare coordinates against fixed bounds. -/
structure LatLng where
  lat : ℚ
  lng : ℚ

/-- The normalized traffic condition summary the traffic adapter
returns (the dict built in traffic_service.py). -/
structure TrafficSummary where
  speedRatio : ℚ
  delay_minutes : ℚ
  level : String
  incidents : ℕ
  congestion : ℤ
  deriving DecidableEq, Repr

/-- `TrafficService._default_traffic` (traffic_service.py lines
262-271). -/
def default_traffic : TrafficSummary :=
  ⟨75 / 100, 5, "moderate", 0, 25⟩

/-- `TrafficService._speed_ratio_to_level` (traffic_service.py lines
233-243). -/
def speed_ratio_to_level (ratio : ℚ) : String :=
  if ratio > 9 / 10 then "low"
  else if ratio > 7 / 10 then "moderate"
  else if ratio > 5 / 10 then "heavy"
  else "severe"

/-- `TrafficService._crosses_cbd` (traffic_service.py lines 245-260). -/
def crosses_cbd (origin destination : LatLng) : Bool :=
  let CBD_CENTER : ℚ × ℚ := (-1285 / 1000, 36820 / 1000)
  let CBD_RADIUS : ℚ := 2 / 100
  let in_cbd := fun (lat lng : ℚ) =>
    decide (|lat - CBD_CENTER.1| < CBD_RADIUS ∧ |lng - CBD_CENTER.2| < CBD_RADIUS)
  in_cbd origin.lat origin.lng || in_cbd destination.lat destination.lng

/-- `TrafficService._estimate_from_patterns` (traffic_service.py lines
176-217): the historical pattern table keyed by local hour, weekday
and CBD crossing.  `datetime.now()` is modelled by passing the hour
and weekday in. -/
def estimate_from_patterns (hour day : ℕ) (origin destination : LatLng) :
    TrafficSummary :=
  let is_cbd := crosses_cbd origin destination
  let base_ratio : ℚ :=
    if day < 5 then
      if 7 ≤ hour ∧ hour ≤ 9 then (if is_cbd then 5 / 10 else 7 / 10)
      else if 17 ≤ hour ∧ hour ≤ 19 then (if is_cbd then 45 / 100 else 65 / 100)
      else if 12 ≤ hour ∧ hour ≤ 14 then 75 / 100
      else if 22 ≤ hour ∨ hour ≤ 5 then 95 / 100
      else 8 / 10
    else
      if 11 ≤ hour ∧ hour ≤ 15 then 7 / 10 else 85 / 100
  ⟨base_ratio, (1 / base_ratio - 1) * 10, speed_ratio_to_level base_ratio, 0,
    pyInt ((1 - base_ratio) * 100)⟩

/-- One call to the external HTTP provider, as the adapter observes
it: a timeout, some other raised exception, or a response carrying a
status code and — when the payload parses — the parsed body
(`none` body: `.json()` raised on a malformed payload). -/
inductive ApiOutcome (α : Type) where
  | timeout
  | raised (msg : String)
  | response (status_code : ℕ) (body : Option α)

/-- The fields `_fetch_from_api` reads from the parsed TomTom route
response (already defaulted the way the chained `.get` calls do). -/
structure RouteSummaryPayload where
  noTrafficTravelTimeInSeconds : ℚ
  travelTimeInSeconds : ℚ
  incidents : ℕ

/-- `TrafficService._fetch_from_api` (traffic_service.py lines
84-138).  Raised exceptions — timeout, transport errors, malformed
JSON, and the division by zero when `travelTimeInSeconds` is 0 with a
positive freeflow time — surface as `Except.error`; a non-200 status
returns the default summary (line 105). -/
def fetch_from_api (r : ApiOutcome RouteSummaryPayload) :
    Except String TrafficSummary :=
  match r with
  | ApiOutcome.timeout => Except.error "timeout"
  | ApiOutcome.raised msg => Except.error msg
  | ApiOutcome.response status_code body =>
    if status_code ≠ 200 then Except.ok default_traffic
    else
      match body with
      | none => Except.error "malformed payload"
      | some data =>
        let freeflow_time := data.noTrafficTravelTimeInSeconds
        let traffic_time := data.travelTimeInSeconds
        if freeflow_time > 0 then
          if traffic_time = 0 then Except.error "ZeroDivisionError"
          else
            let speedRatio := freeflow_time / traffic_time
            let delay_minutes := (traffic_time - freeflow_time) / 60
            Except.ok ⟨speedRatio, delay_minutes,
              (if speedRatio > 9 / 10 then "low"
               else if speedRatio > 7 / 10 then "moderate"
               else if speedRatio > 5 / 10 then "heavy"
               else "severe"),
              data.incidents, pyInt ((1 - speedRatio) * 100)⟩
        else
          Except.ok ⟨1, 0, "low", data.incidents, pyInt ((1 - 1) * 100)⟩

/-- `TrafficService.get_traffic_conditions` (traffic_service.py lines
31-57): cache hit short-circuits; with an API key the provider is
called inside try/except, any exception answered by the default
summary; without a key the historical pattern estimate is used.
`CacheService.get` never raises (cache_service.py lines 38-47), so
the cache probe before the try block is modelled as an
`Option TrafficSummary`. -/
def get_traffic_conditions (origin destination : LatLng)
    (cached : Option TrafficSummary) (api_key_present : Bool)
    (api : ApiOutcome RouteSummaryPayload) (hour day : ℕ) : TrafficSummary :=
  match cached with
  | some c => c
  | none =>
    if api_key_present then
      match fetch_from_api api with
      | Except.ok result => result
      | Except.error _ => default_traffic
    else
      estimate_from_patterns hour day origin destination

/-- The normalized weather summary (the dict built in
weather_service.py). -/
structure WeatherSummary where
  condition : String
  description : String
  temperature : ℚ
  humidity : ℚ
  precipitation : ℚ
  visibility : ℚ
  wind_speed : ℚ
  deriving DecidableEq, Repr

/-- `WeatherService._default_weather` (weather_service.py lines
81-92). -/
def default_weather : WeatherSummary :=
  ⟨"clear", "clear sky", 25, 50, 0, 10, 5⟩

/-- The fields `WeatherService._fetch_from_api` reads from the parsed
OpenWeatherMap response (already defaulted the way the `.get` chains
do; `visibility` still in metres). -/
structure WeatherPayload where
  condition : String
  description : String
  temperature : ℚ
  humidity : ℚ
  rain_1h : ℚ
  visibility_m : ℚ
  wind_speed : ℚ

/-- `WeatherService._fetch_from_api` (weather_service.py lines
47-79): non-200 returns the default summary; timeouts, raised
transport errors and malformed payloads surface as `Except.error`. -/
def fetch_weather_from_api (r : ApiOutcome WeatherPayload) :
    Except String WeatherSummary :=
  match r with
  | ApiOutcome.timeout => Except.error "timeout"
  | ApiOutcome.raised msg => Except.error msg
  | ApiOutcome.response status_code body =>
    if status_code ≠ 200 then Except.ok default_weather
    else
      match body with
      | none => Except.error "malformed payload"
      | some data =>
        Except.ok ⟨data.condition.toLower, data.description,
          data.temperature, data.humidity, data.rain_1h,
          data.visibility_m / 1000, data.wind_speed⟩

/-- `WeatherService.get_current_weather` (weather_service.py lines
25-45): cache hit short-circuits; with an API key the provider call
runs inside try/except with the default summary on any exception;
with no key the default summary is returned directly. -/
def get_current_weather (cached : Option WeatherSummary)
    (api_key_present : Bool) (api : ApiOutcome WeatherPayload) :
    WeatherSummary :=
  match cached with
  | some c => c
  | none =>
    if api_key_present then
      match fetch_weather_from_api api with
      | Except.ok result => result
      | Except.error _ => default_weather
    else
      default_weather

/-- Claim C7: both adapters are total — every call path ends in a
complete summary value — and on a cache miss any failing provider
interaction (timeout, raised exception, malformed payload, and
non-2xx status) is answered with the documented default summary,
while a cache hit is returned as is. -/
theorem C7_adapters_absorb_failures (origin destination : LatLng)
    (hour day : ℕ) (api : ApiOutcome RouteSummaryPayload)
    (wapi : ApiOutcome WeatherPayload) (e ew : String) :
    (fetch_from_api api = Except.error e →
      get_traffic_conditions origin destination none true api hour day
        = default_traffic)
    ∧ (∀ status_code body, status_code ≠ 200 →
        get_traffic_conditions origin destination none true
          (ApiOutcome.response status_code body) hour day = default_traffic)
    ∧ (fetch_weather_from_api wapi = Except.error ew →
        get_current_weather none true wapi = default_weather)
    ∧ (∀ status_code body, status_code ≠ 200 →
        get_current_weather none true (ApiOutcome.response status_code body)
          = default_weather)
    ∧ (∀ c, get_traffic_conditions origin destination (some c) true api
          hour day = c)
    ∧ (∀ c, get_current_weather (some c) true wapi = c) := by
  refine ⟨?_, ?_, ?_, ?_, fun c => rfl, fun c => rfl⟩
  · intro h
    unfold get_traffic_conditions
    rw [h]
    rfl
  · intro status_code body hst
    unfold get_traffic_conditions fetch_from_api
    simp [hst]
  · intro h
    unfold get_current_weather
    rw [h]
    rfl
  · intro status_code body hst
    unfold get_current_weather fetch_weather_from_api
    simp [hst]

/-- Witness for C7: a timed-out traffic call and a malformed weather
payload both yield the documented defaults. -/
theorem C7_adapters_absorb_failures_witness :
    get_traffic_conditions ⟨-129 / 100, 368 / 10⟩ ⟨-128 / 100, 369 / 10⟩
        none true ApiOutcome.timeout 8 1 = default_traffic
    ∧ get_current_weather none true (ApiOutcome.response 200 none)
        = default_weather := by
  constructor
  · exact (C7_adapters_absorb_failures ⟨-129 / 100, 368 / 10⟩
      ⟨-128 / 100, 369 / 10⟩ 8 1 ApiOutcome.timeout
      (ApiOutcome.response 200 none) "timeout" "malformed payload").1 rfl
  · exact (C7_adapters_absorb_failures ⟨-129 / 100, 368 / 10⟩
      ⟨-128 / 100, 369 / 10⟩ 8 1 ApiOutcome.timeout
      (ApiOutcome.response 200 none) "timeout" "malformed payload").2.2.1 rfl

/- ------------------------------------------------------------------
   Haversine geometry (app/services/feature_service.py) and the
   route-level simple ETA (app/routes/predictions.py), over ℝ.
   ------------------------------------------------------------------ -/

/-- Python `math.radians`. -/
noncomputable def radians (x : ℝ) : ℝ :=
  x * (Real.pi / 180)

/-- Python `math.atan2(y, x)`: the argument of the complex number
`x + y*i`, with `atan2(0, 0) = 0`. -/
noncomputable def atan2 (y x : ℝ) : ℝ :=
  Complex.arg ⟨x, y⟩

/-- The intermediate `a` of `FeatureService._haversine_distance`
(feature_service.py lines 280-283). -/
noncomputable def hav_a (lat1 lng1 lat2 lng2 : ℝ) : ℝ :=
  Real.sin (radians (lat2 - lat1) / 2) ^ 2 +
    Real.cos (radians lat1) * Real.cos (radians lat2) *
      Real.sin (radians (lng2 - lng1) / 2) ^ 2

/-- `FeatureService._haversine_distance` (feature_service.py lines
264-286), in metres. -/
noncomputable def haversine_distance (lat1 lng1 lat2 lng2 : ℝ) : ℝ :=
  let R : ℝ := 6371000
  let a := hav_a lat1 lng1 lat2 lng2
  let c := 2 * atan2 (Real.sqrt a) (Real.sqrt (1 - a))
  R * c

/-- The haversine `a` term is symmetric in its two coordinates. -/
theorem hav_a_symm (lat1 lng1 lat2 lng2 : ℝ) :
    hav_a lat1 lng1 lat2 lng2 = hav_a lat2 lng2 lat1 lng1 := by
  unfold hav_a radians
  rw [show (lat1 - lat2) * (Real.pi / 180) / 2
        = -((lat2 - lat1) * (Real.pi / 180) / 2) from by ring,
      show (lng1 - lng2) * (Real.pi / 180) / 2
        = -((lng2 - lng1) * (Real.pi / 180) / 2) from by ring,
      Real.sin_neg, Real.sin_neg]
  ring

/-- The haversine `a` term vanishes on the diagonal. -/
theorem hav_a_self (lat lng : ℝ) : hav_a lat lng lat lng = 0 := by
  unfold hav_a radians
  simp

/-- `atan2 0 1 = 0`: the argument of the complex number 1. -/
theorem atan2_zero_one : atan2 0 1 = 0 := by
  unfold atan2
  rw [show (⟨1, 0⟩ : ℂ) = 1 from Complex.ext (by simp) (by simp),
    Complex.arg_one]

/-- `atan2` of a non-negative ordinate is non-negative. -/
theorem atan2_nonneg (y x : ℝ) (hy : 0 ≤ y) : 0 ≤ atan2 y x := by
  unfold atan2
  exact Complex.arg_nonneg_iff.mpr hy

/-- Claim C8: the haversine distance is symmetric, and zero between a
coordinate and itself. -/
theorem C8_haversine_symm_and_self_zero :
    (∀ lat1 lng1 lat2 lng2 : ℝ,
      haversine_distance lat1 lng1 lat2 lng2
        = haversine_distance lat2 lng2 lat1 lng1)
    ∧ (∀ lat lng : ℝ, haversine_distance lat lng lat lng = 0) := by
  constructor
  · intro lat1 lng1 lat2 lng2
    unfold haversine_distance
    rw [hav_a_symm]
  · intro lat lng
    unfold haversine_distance
    rw [hav_a_self]
    simp [atan2_zero_one]

/-- `Location` (schemas.py lines 34-37): the coordinates the predict
route receives. -/
structure Location where
  latitude : ℝ
  longitude : ℝ

/-- The traffic dict handed to `_simple_eta_calculation`; the code
only reads `get("speed_ratio", 1.0)`, and a dict lacking the key is
`⟨none⟩`. -/
structure TrafficInfo where
  speedRatio : Option ℝ

/-- The average speed `_simple_eta_calculation` derives
(predictions.py lines 366-372): the 25 km/h base, scaled by the
traffic speed ratio when traffic data is present. -/
noncomputable def route_avg_speed_kmh (traffic_data : Option TrafficInfo) : ℝ :=
  match traffic_data with
  | none => 25
  | some t => 25 * t.speedRatio.getD 1

/-- `_simple_eta_calculation` (predictions.py lines 345-381): inline
haversine distance with R = 6371 km, average speed clamped to at
least 5 km/h as the divisor, and a plain 20 percent margin — no
60-second floor is applied.  Returns
`(eta_seconds, eta_seconds - margin, eta_seconds + margin)`. -/
noncomputable def simple_eta_calculation (pickup dropoff : Location)
    (traffic_data : Option TrafficInfo) : ℝ × ℝ × ℝ :=
  let R : ℝ := 6371
  let lat1 := radians pickup.latitude
  let lng1 := radians pickup.longitude
  let lat2 := radians dropoff.latitude
  let lng2 := radians dropoff.longitude
  let dlat := lat2 - lat1
  let dlng := lng2 - lng1
  let a := Real.sin (dlat / 2) ^ 2 +
    Real.cos lat1 * Real.cos lat2 * Real.sin (dlng / 2) ^ 2
  let c := 2 * atan2 (Real.sqrt a) (Real.sqrt (1 - a))
  let distance_km := R * c
  let avg_speed_kmh := route_avg_speed_kmh traffic_data
  let eta_hours := distance_km / max avg_speed_kmh 5
  let eta_seconds := eta_hours * 3600
  let margin := eta_seconds * (2 / 10)
  (eta_seconds, eta_seconds - margin, eta_seconds + margin)

/-- Claim C10: the route-level simple calculation is total — the
divisor is clamped to at least 5 km/h for every traffic summary
(including zero and negative speed ratios), and the resulting ETA is
a well-defined, non-negative real number. -/
theorem C10_simple_eta_total (pickup dropoff : Location)
    (traffic_data : Option TrafficInfo) :
    5 ≤ max (route_avg_speed_kmh traffic_data) 5
    ∧ 0 ≤ (simple_eta_calculation pickup dropoff traffic_data).1 := by
  refine ⟨le_max_right _ _, ?_⟩
  show 0 ≤ 6371 *
      (2 * atan2 (Real.sqrt _) (Real.sqrt _)) /
      max (route_avg_speed_kmh traffic_data) 5 * 3600
  refine mul_nonneg (div_nonneg ?_ ?_) (by norm_num)
  · exact mul_nonneg (by norm_num)
      (mul_nonneg (by norm_num) (atan2_nonneg _ _ (Real.sqrt_nonneg _)))
  · exact le_trans (by norm_num) (le_max_right _ _)

/-- Counterexample for claim C2: the route-level simple calculation
returns an ETA of 0 seconds — below the claimed 60-second floor —
when pickup and dropoff coincide. -/
theorem C2_route_simple_calculation_below_floor :
    (simple_eta_calculation ⟨-12921 / 10000, 368219 / 10000⟩
        ⟨-12921 / 10000, 368219 / 10000⟩ none).1 < 60 := by
  have h0 : (simple_eta_calculation ⟨-12921 / 10000, 368219 / 10000⟩
      ⟨-12921 / 10000, 368219 / 10000⟩ none).1 = 0 := by
    show 6371 * (2 * atan2 _ _) / max (route_avg_speed_kmh none) 5 * 3600 = 0
    simp [atan2_zero_one]
  rw [h0]
  norm_num
